import Mathlib

/-!
Shallow embedding of the client-side widget modules of the CV repository
(`src/src/main.js`, with one variant from `src/unnamed/part_002`):
the theme toggle (`ThemeManager`), the scroll-spy navigation highlighter
(`NavHighlight`), the certificate lightbox modal (`CertModal`) and the
print/PDF exporter (`PDFExport`).

DOM attribute reads (`getAttribute`) and `localStorage.getItem` return
either a string or null; both are modelled as `Option String`.  JavaScript
truthiness of such a value (null and the empty string are falsy) is
modelled by `jsTruthy`.
-/

/-- JavaScript truthiness of a nullable string: `null` and `""` are falsy,
every other string is truthy. -/
def jsTruthy : Option String → Bool
  | none => false
  | some s => s ≠ ""

/-- String coercion of a possibly-undefined value, as performed by
JavaScript when assigning `undefined` into a string-valued DOM property
(template literals and property assignment render it as `"undefined"`). -/
def jsStr : Option String → String
  | none => "undefined"
  | some s => s

/-- The three-way next-theme rule of `ThemeManager.switchTheme`
(src/src/main.js lines 37-44): `"dark" → "light"`, `"light" → "dark"`,
anything else (including an absent attribute) → the opposite of the
environment `prefers-color-scheme` preference. -/
def nextTheme (current : Option String) (prefersDark : Bool) : String :=
  if current = some "dark" then "light"
  else if current = some "light" then "dark"
  else if prefersDark then "light" else "dark"

/-- The page state the theme writers touch: the `data-theme` attribute on
`documentElement`, the persisted `localStorage` value under
`cv-color-scheme`, the fixed environment preference, the FIFO queue of
scheduled-but-unfired `exportPDF` timeouts (each holding the theme that
invocation captured), and a count of `window.print()` calls. -/
structure PageSt where
  attr : Option String
  storage : Option String
  prefersDark : Bool
  pending : List (Option String)
  printed : Nat
deriving DecidableEq, Repr

/-- `ThemeManager.switchTheme` (src/src/main.js lines 33-48): read the
applied attribute, compute the next theme by the three-way rule, apply it
and persist it. -/
def switchTheme (s : PageSt) : PageSt :=
  let next := nextTheme s.attr s.prefersDark
  { s with attr := some next, storage := some next }

/-- `ThemeManager.loadTheme` (src/src/main.js lines 26-31): read the
persisted value; if truthy, apply it as the attribute. -/
def loadTheme (s : PageSt) : PageSt :=
  if jsTruthy s.storage then { s with attr := s.storage } else s

/-- The page state before any interaction: no explicit attribute, no
persisted value, no pending export timeout. -/
def initialPage (pd : Bool) : PageSt :=
  ⟨none, none, pd, [], 0⟩

/-- `n` successive clicks of the theme toggle from the unset start. -/
def toggles (pd : Bool) : Nat → PageSt
  | 0 => initialPage pd
  | n + 1 => switchTheme (toggles pd n)

/-- The inverse of the environment preference (spec: the theme a first
toggle from an unset state chooses). -/
def invPref (pd : Bool) : String := if pd then "light" else "dark"

/-- The environment-preferred theme as a string. -/
def prefTheme (pd : Bool) : String := if pd then "dark" else "light"

/-- Modelled from the spec: the alternating persisted-theme sequence —
the theme the spec predicts after the `(k+1)`-th toggle from an unset
start: the inverse of the preference at even `k`, the preference itself
at odd `k`. -/
def expectedTheme (pd : Bool) (k : Nat) : String :=
  if k % 2 = 0 then invPref pd else prefTheme pd

/-- The synchronous part of `PDFExport.exportPDF` (src/src/main.js lines
214-220): capture the current `data-theme` attribute in a local constant,
force-apply `"light"`, and schedule the print-and-restore callback;
`setTimeout` callbacks with the same delay fire in scheduling order, so
the captured value joins the back of the FIFO queue. -/
def exportInvoke (s : PageSt) : PageSt :=
  { s with attr := some "light", pending := s.pending ++ [s.attr] }

/-- Firing the oldest scheduled `exportPDF` timeout (src/src/main.js lines
220-229): call `window.print()`, then restore the captured theme — set the
attribute back if the captured value is truthy, otherwise remove it. -/
def exportFire (s : PageSt) : PageSt :=
  match s.pending with
  | [] => s
  | c :: rest =>
      { s with printed := s.printed + 1,
               attr := if jsTruthy c then c else none,
               pending := rest }

/-- One `exportPDF` invocation run to completion with no interleaving. -/
def exportPDFRun (s : PageSt) : PageSt := exportFire (exportInvoke s)

/-- The operations the theme writers can interleave on the page state. -/
inductive PageOp
  | toggle
  | invoke
  | fire
deriving DecidableEq, Repr

def stepOp (s : PageSt) : PageOp → PageSt
  | PageOp.toggle => switchTheme s
  | PageOp.invoke => exportInvoke s
  | PageOp.fire => exportFire s

def runOps (s : PageSt) (ops : List PageOp) : PageSt := ops.foldl stepOp s

/-- The values of the `data-theme` attribute that represent a ThemeState:
unset, explicit light, or explicit dark. -/
def isThemeState (a : Option String) : Prop :=
  a = none ∨ a = some "light" ∨ a = some "dark"

/-- `n` complete, non-overlapping `exportPDF` invocations. -/
def seqExports (s : PageSt) : Nat → PageSt
  | 0 => s
  | n + 1 => exportPDFRun (seqExports s n)

/-- A persisted-storage backend that may throw: whether a `getItem` call
throws, whether a `setItem` call throws, and the stored value under the
theme key. -/
structure FStorage where
  readFails : Bool
  writeFails : Bool
  val : Option String
deriving DecidableEq, Repr

/-- Outcome of a theme operation against fallible storage: the final
applied attribute, the final storage, and whether an exception escaped
the operation. -/
structure OpResult where
  attr : Option String
  storage : FStorage
  raised : Bool
deriving DecidableEq, Repr

/-- `ThemeManager.loadTheme` (src/src/main.js lines 26-31) against
fallible storage: `localStorage.getItem` is called with no try/catch, so a
read error propagates before any attribute is applied. -/
def loadThemeF (attr : Option String) (st : FStorage) : OpResult :=
  if st.readFails then ⟨attr, st, true⟩
  else if jsTruthy st.val then ⟨st.val, st, false⟩
  else ⟨attr, st, false⟩

/-- `ThemeManager.switchTheme` (src/src/main.js lines 33-48) against
fallible storage: the attribute is applied first (line 46) and
`localStorage.setItem` is called with no try/catch (line 47), so a write
error propagates after the attribute was updated and before anything is
persisted. -/
def switchThemeF (attr : Option String) (pd : Bool) (st : FStorage) :
    OpResult :=
  let next := nextTheme attr pd
  if st.writeFails then ⟨some next, st, true⟩
  else ⟨some next, { st with val := some next }, false⟩

/-- The observable modal state: the displayed image source and alt text,
the displayed title, the `hidden` flag on the modal element, and the
`overflow` style on `document.body`. -/
structure ModalSt where
  imgSrc : String
  imgAlt : String
  title : String
  hidden : Bool
  bodyOverflow : String
deriving DecidableEq, Repr

/-- A trigger element's data attributes: `dataset.cert` (the image source)
and `dataset.title`, each possibly absent. -/
structure CertThumb where
  cert : Option String
  titleText : Option String
deriving DecidableEq, Repr

/-- `CertModal.open` from src/src/main.js lines 183-194: reads
`dataset.cert` and `dataset.title`, assigns them (JavaScript-coerced) to
the image source, alt text and title, unhides the modal and suspends body
scroll — with no guard on a missing source. -/
def openModal (t : CertThumb) (_m : ModalSt) : ModalSt :=
  { imgSrc := jsStr t.cert,
    imgAlt := "Certificado " ++ jsStr t.titleText,
    title := jsStr t.titleText,
    hidden := false,
    bodyOverflow := "hidden" }

/-- `CertModal.open` from src/unnamed/part_002 lines 207-220: the same
body, but guarded — `if (!certSrc) return;` makes the call a no-op when
the image source is falsy (absent or empty). -/
def openModalGuarded (t : CertThumb) (m : ModalSt) : ModalSt :=
  if jsTruthy t.cert then openModal t m else m

/-- A navigation link: its `href` attribute and whether it carries the
`nav__link--active` class. -/
structure NavLink where
  href : Option String
  active : Bool
deriving DecidableEq, Repr

/-- The per-link body of `NavHighlight.setActive` (src/src/main.js lines
102-109): add the active class when the href equals `"#" + id`, remove it
otherwise. -/
def setActiveLink (id : String) (l : NavLink) : NavLink :=
  if l.href = some ("#" ++ id) then { l with active := true }
  else { l with active := false }

/-- `NavHighlight.setActive` (src/src/main.js lines 101-110): apply the
per-link update to every navigation link. -/
def setActive (id : String) (links : List NavLink) : List NavLink :=
  links.map (setActiveLink id)

/-- An IntersectionObserver entry: whether the target currently
intersects, and the target section's `id` attribute (sections are selected
with `section[id]`, so the attribute is present). -/
structure IEntry where
  isIntersecting : Bool
  targetId : String
deriving DecidableEq, Repr

/-- The per-entry body of `NavHighlight.handleIntersect` (src/src/main.js
lines 93-98): an intersecting entry sets its section active, others are
ignored. -/
def handleStep (links : List NavLink) (e : IEntry) : List NavLink :=
  if e.isIntersecting then setActive e.targetId links else links

/-- `NavHighlight.handleIntersect` (src/src/main.js lines 92-99): process a
batch of entries in order. -/
def handleIntersect (entries : List IEntry) (links : List NavLink) :
    List NavLink :=
  entries.foldl handleStep links

lemma nextTheme_expected (pd : Bool) (n : Nat) :
    nextTheme (some (expectedTheme pd n)) pd = expectedTheme pd (n + 1) := by
  rcases Nat.mod_two_eq_zero_or_one n with h | h
  · have h' : (n + 1) % 2 = 1 := by omega
    cases pd <;> simp [expectedTheme, invPref, prefTheme, nextTheme, h, h']
  · have h' : (n + 1) % 2 = 0 := by omega
    cases pd <;> simp [expectedTheme, invPref, prefTheme, nextTheme, h, h']

lemma switchTheme_attr (s : PageSt) :
    (switchTheme s).attr = some (nextTheme s.attr s.prefersDark) := rfl

lemma switchTheme_storage (s : PageSt) :
    (switchTheme s).storage = some (nextTheme s.attr s.prefersDark) := rfl

lemma switchTheme_prefersDark (s : PageSt) :
    (switchTheme s).prefersDark = s.prefersDark := rfl

lemma toggles_prefersDark (pd : Bool) (n : Nat) :
    (toggles pd n).prefersDark = pd := by
  induction n with
  | zero => rfl
  | succ n ih => rw [toggles, switchTheme_prefersDark, ih]

lemma toggles_succ_eq (pd : Bool) (n : Nat) :
    (toggles pd (n + 1)).attr = some (expectedTheme pd n) ∧
      (toggles pd (n + 1)).storage = some (expectedTheme pd n) := by
  induction n with
  | zero =>
      cases pd <;> simp [toggles, initialPage, switchTheme, nextTheme,
        expectedTheme, invPref]
  | succ n ih =>
      have h := nextTheme_expected pd n
      have hpd := toggles_prefersDark pd (n + 1)
      have hs : toggles pd (n + 2) = switchTheme (toggles pd (n + 1)) := rfl
      constructor
      · rw [hs, switchTheme_attr, ih.1, hpd, h]
      · rw [hs, switchTheme_storage, ih.1, hpd, h]

lemma restore_themeState (a : Option String) (h : isThemeState a) :
    (if jsTruthy a then a else none) = a := by
  rcases h with h | h | h <;> subst h <;> rfl

lemma exportPDFRun_eq (s : PageSt) (h : isThemeState s.attr)
    (hp : s.pending = []) :
    exportPDFRun s = { s with printed := s.printed + 1 } := by
  simp only [exportPDFRun, exportInvoke, hp, List.nil_append]
  simp [exportFire, restore_themeState s.attr h]

lemma seqExports_eq (s : PageSt) (h : isThemeState s.attr)
    (hp : s.pending = []) (n : Nat) :
    seqExports s n = { s with printed := s.printed + n } := by
  induction n with
  | zero => simp [seqExports]
  | succ n ih =>
      have h2 : isThemeState ({ s with printed := s.printed + n } : PageSt).attr := h
      rw [seqExports, ih, exportPDFRun_eq _ h2 hp]
      simp [Nat.add_assoc]

lemma setActiveLink_active (id : String) (l : NavLink) :
    (setActiveLink id l).active = decide (l.href = some ("#" ++ id)) := by
  unfold setActiveLink
  split <;> simp_all

lemma setActiveLink_idem (a b : String) (l : NavLink) :
    setActiveLink b (setActiveLink a l) = setActiveLink b l := by
  rcases l with ⟨href, act⟩
  by_cases h1 : href = some ("#" ++ a) <;>
    by_cases h2 : href = some ("#" ++ b) <;>
      simp_all [setActiveLink]

lemma setActive_map_active (id : String) (links : List NavLink) :
    (setActive id links).map NavLink.active
      = links.map (fun l => decide (l.href = some ("#" ++ id))) := by
  induction links with
  | nil => rfl
  | cons l ls ih =>
      simp only [setActive, List.map_cons] at ih ⊢
      rw [setActiveLink_active, ih]

lemma setActive_absorb (a b : String) (links : List NavLink) :
    setActive b (setActive a links) = setActive b links := by
  induction links with
  | nil => rfl
  | cons l ls ih =>
      simp only [setActive, List.map_cons] at ih ⊢
      rw [setActiveLink_idem, ih]

lemma setActive_handleIntersect (b : String) (es : List IEntry)
    (links : List NavLink) :
    setActive b (handleIntersect es links) = setActive b links := by
  induction es generalizing links with
  | nil => rfl
  | cons e es ih =>
      simp only [handleIntersect, List.foldl_cons] at ih ⊢
      rw [ih (handleStep links e)]
      unfold handleStep
      split
      · exact setActive_absorb _ b links
      · rfl

lemma handleIntersect_snoc (es : List IEntry) (b : String)
    (links : List NavLink) :
    handleIntersect (es ++ [⟨true, b⟩]) links = setActive b links := by
  have h : handleIntersect (es ++ [⟨true, b⟩]) links
      = handleStep (handleIntersect es links) ⟨true, b⟩ := by
    simp [handleIntersect, List.foldl_append]
  rw [h]
  show setActive b (handleIntersect es links) = setActive b links
  exact setActive_handleIntersect b es links

/-- C1: a single toggle maps applied "dark" to "light", "light" to "dark",
and an unset state to the inverse of the environment preference; from an
unset start, the persisted theme after `n+1` toggles alternates
deterministically, beginning with the inverse of the preference. -/
theorem theme_toggle_three_way_rule_and_alternation (pd : Bool) (n : Nat) :
    nextTheme (some "dark") pd = "light" ∧
    nextTheme (some "light") pd = "dark" ∧
    nextTheme none pd = invPref pd ∧
    (toggles pd (n + 1)).storage = some (expectedTheme pd n) ∧
    (toggles pd (n + 1)).attr = some (expectedTheme pd n) := by
  refine ⟨?_, ?_, ?_, (toggles_succ_eq pd n).2, (toggles_succ_eq pd n).1⟩
  · cases pd <;> decide
  · cases pd <;> decide
  · cases pd <;> decide

/-- C2: a single `exportPDF` invocation captures the current theme, force
applies "light" for the print snapshot, and after the scheduled callback
fires it has printed once and restored the attribute, the persisted value
and the captured-unset case exactly. -/
theorem export_restores_theme_exactly (s : PageSt)
    (h : isThemeState s.attr) (hp : s.pending = []) :
    (exportInvoke s).attr = some "light" ∧
    (exportInvoke s).pending = [s.attr] ∧
    (exportPDFRun s).attr = s.attr ∧
    (exportPDFRun s).storage = s.storage ∧
    (exportPDFRun s).printed = s.printed + 1 ∧
    (s.attr = none → (exportPDFRun s).attr = none) := by
  have he := exportPDFRun_eq s h hp
  refine ⟨rfl, by simp [exportInvoke, hp], ?_, ?_, ?_, ?_⟩
  · rw [he]
  · rw [he]
  · rw [he]
  · intro hn
    rw [he]
    exact hn

theorem export_restores_theme_exactly_witness :
    (exportPDFRun ⟨some "dark", some "dark", false, [], 0⟩).attr = some "dark" ∧
    (exportPDFRun ⟨none, none, true, [], 0⟩).attr = none :=
  ⟨(export_restores_theme_exactly ⟨some "dark", some "dark", false, [], 0⟩
      (Or.inr (Or.inr rfl)) rfl).2.2.1,
   (export_restores_theme_exactly ⟨none, none, true, [], 0⟩
      (Or.inl rfl) rfl).2.2.1⟩

/-- C3 counterexample: with the theme applied and persisted as "dark", a
second `exportPDF` invocation started during the first invocation's
scheduling delay captures the forced "light"; after both timeouts fire the
attribute is "light", not the "dark" that held before the first
invocation. -/
theorem export_overlap_counterexample :
    (runOps ⟨some "dark", some "dark", false, [], 0⟩
        [PageOp.invoke, PageOp.invoke, PageOp.fire, PageOp.fire]).attr
      = some "light" ∧
    (runOps ⟨some "dark", some "dark", false, [], 0⟩
        [PageOp.invoke, PageOp.invoke, PageOp.fire, PageOp.fire]).attr
      ≠ (⟨some "dark", some "dark", false, [], 0⟩ : PageSt).attr := by
  constructor <;> decide

/-- C3 amended: each invocation's capture/restore pair is a per-invocation
local, so any number of non-overlapping `exportPDF` invocations restores
the pre-invocation theme state; but an invocation started during another
invocation's scheduling delay captures the forced "light", so after all
timeouts fire the attribute is "light" regardless of the original theme. -/
theorem export_rapid_invocation_amended (s : PageSt) (n : Nat)
    (h : isThemeState s.attr) (hp : s.pending = []) :
    (seqExports s n).attr = s.attr ∧
    (seqExports s n).storage = s.storage ∧
    (runOps s [PageOp.invoke, PageOp.invoke, PageOp.fire, PageOp.fire]).attr
      = some "light" := by
  rw [seqExports_eq s h hp n]
  refine ⟨rfl, rfl, ?_⟩
  simp [runOps, stepOp, exportInvoke, exportFire, hp, jsTruthy]

theorem export_rapid_invocation_amended_witness :
    (seqExports ⟨some "dark", some "dark", true, [], 0⟩ 2).attr = some "dark" :=
  (export_rapid_invocation_amended ⟨some "dark", some "dark", true, [], 0⟩ 2
    (Or.inr (Or.inr rfl)) rfl).1

/-- C4 counterexample: against a storage backend whose write throws, a
toggle does not complete silently — the exception escapes `switchTheme`. -/
theorem storage_failure_counterexample :
    ¬ ((switchThemeF none true ⟨false, true, none⟩).raised = false) := by
  decide

/-- C4 amended: `ThemeManager` wraps no storage access in try/catch, so a
storage error propagates out of the operation: a failing write in
`switchTheme` escapes after the attribute has already been applied (and
persists nothing), and a failing read in `loadTheme` escapes before any
attribute is applied. -/
theorem storage_failure_propagates (attr : Option String) (pd : Bool)
    (st : FStorage) (hw : st.writeFails = true) (hr : st.readFails = true) :
    (switchThemeF attr pd st).raised = true ∧
    (switchThemeF attr pd st).attr = some (nextTheme attr pd) ∧
    (switchThemeF attr pd st).storage = st ∧
    (loadThemeF attr st).raised = true ∧
    (loadThemeF attr st).attr = attr := by
  simp [switchThemeF, loadThemeF, hw, hr]

theorem storage_failure_propagates_witness :
    (switchThemeF (some "dark") true ⟨true, true, some "dark"⟩).raised = true ∧
    (loadThemeF (some "dark") ⟨true, true, some "dark"⟩).raised = true :=
  ⟨(storage_failure_propagates (some "dark") true ⟨true, true, some "dark"⟩
      rfl rfl).1,
   (storage_failure_propagates (some "dark") true ⟨true, true, some "dark"⟩
      rfl rfl).2.2.2.1⟩

/-- C5 counterexample: `CertModal.open` in src/src/main.js has no guard —
on a closed modal, opening from a trigger with no `data-cert` still
unhides the modal and suspends scroll (the image source becomes the
coerced string "undefined"), so the ModalState does change. -/
theorem modal_open_missing_src_counterexample :
    openModal ⟨none, none⟩ ⟨"", "", "", true, ""⟩ ≠ ⟨"", "", "", true, ""⟩ ∧
    (openModal ⟨none, none⟩ ⟨"", "", "", true, ""⟩).hidden = false := by
  constructor <;> decide

/-- C5 amended: the guarded `CertModal.open` variant of
src/unnamed/part_002 is a no-op on a falsy image source, leaving the
ModalState unchanged; the `CertModal.open` of src/src/main.js is unguarded
and always unhides the modal and suspends scroll. -/
theorem modal_open_guarded_noop (t : CertThumb) (m : ModalSt)
    (h : jsTruthy t.cert = false) :
    openModalGuarded t m = m ∧
    (openModal t m).hidden = false ∧
    (openModal t m).bodyOverflow = "hidden" := by
  refine ⟨?_, rfl, rfl⟩
  simp [openModalGuarded, h]

theorem modal_open_guarded_noop_witness :
    openModalGuarded ⟨none, none⟩ ⟨"", "", "", true, ""⟩
      = ⟨"", "", "", true, ""⟩ :=
  (modal_open_guarded_noop ⟨none, none⟩ ⟨"", "", "", true, ""⟩ rfl).1

/-- C6 counterexample: immediately after the print exporter's force-apply
of "light" (a mutation by a theme writer), the applied attribute is
"light" while the persisted value is still "dark": the two are not
consistent. -/
theorem theme_consistency_counterexample :
    (exportInvoke ⟨some "dark", some "dark", false, [], 0⟩).attr
      ≠ (exportInvoke ⟨some "dark", some "dark", false, [], 0⟩).storage := by
  decide

/-- C6 amended: after every `switchTheme` the applied attribute equals the
persisted value; the print exporter never writes persisted storage, so
right after its force-apply the attribute can differ from the stored
value, and once its scheduled restore completes, consistency holds again
whenever it held before the invocation. -/
theorem theme_consistency_amended (s : PageSt)
    (h : s.attr = s.storage) (ht : isThemeState s.attr)
    (hp : s.pending = []) :
    (∀ s2 : PageSt, (switchTheme s2).attr = (switchTheme s2).storage) ∧
    (exportInvoke s).storage = s.storage ∧
    (exportPDFRun s).attr = (exportPDFRun s).storage := by
  refine ⟨fun s2 => rfl, rfl, ?_⟩
  rw [exportPDFRun_eq s ht hp]
  exact h

theorem theme_consistency_amended_witness :
    (switchTheme ⟨some "dark", some "dark", false, [], 0⟩).attr
      = (switchTheme ⟨some "dark", some "dark", false, [], 0⟩).storage ∧
    (exportPDFRun ⟨some "light", some "light", false, [], 0⟩).attr
      = (exportPDFRun ⟨some "light", some "light", false, [], 0⟩).storage :=
  ⟨(theme_consistency_amended ⟨some "dark", some "dark", false, [], 0⟩
      rfl (Or.inr (Or.inr rfl)) rfl).1 ⟨some "dark", some "dark", false, [], 0⟩,
   (theme_consistency_amended ⟨some "light", some "light", false, [], 0⟩
      rfl (Or.inr (Or.inl rfl)) rfl).2.2⟩

/-- C7: after `setActive id`, a navigation link carries the active marker
exactly when its href equals `"#" + id`, and running `setActive id` twice
yields the same link list as running it once. -/
theorem setActive_postcondition_idempotent (id : String)
    (links : List NavLink) :
    (setActive id links).map NavLink.active
      = links.map (fun l => decide (l.href = some ("#" ++ id))) ∧
    setActive id (setActive id links) = setActive id links :=
  ⟨setActive_map_active id links, setActive_absorb id id links⟩

/-- C8: within one intersection batch the last intersecting entry wins —
a batch ending with an intersecting entry for section `b` leaves the links
exactly as `setActive b` does, and in the batch "A intersecting, then B
intersecting" the final active markers are precisely the links whose href
equals `"#" + b` (so A's link is not active when its href differs). -/
theorem intersect_last_write_wins (links : List NavLink) (es : List IEntry)
    (a b : String) :
    handleIntersect (es ++ [⟨true, b⟩]) links = setActive b links ∧
    handleIntersect [⟨true, a⟩, ⟨true, b⟩] links = setActive b links ∧
    (handleIntersect [⟨true, a⟩, ⟨true, b⟩] links).map NavLink.active
      = links.map (fun l => decide (l.href = some ("#" ++ b))) := by
  have h2 : handleIntersect [⟨true, a⟩, ⟨true, b⟩] links
      = setActive b links := handleIntersect_snoc [⟨true, a⟩] b links
  exact ⟨handleIntersect_snoc es b links, h2,
    by rw [h2]; exact setActive_map_active b links⟩

/-- C9: any applied attribute other than "light" and "dark" — a legacy
palette name such as "modern-tech" or an absent attribute — is treated as
unset: one toggle sets both the attribute and the persisted value to the
inverse of the environment preference, and after any toggle the applied
theme is exactly "light" or "dark". -/
theorem toggle_normalizes_unrecognized (s : PageSt)
    (h1 : s.attr ≠ some "light") (h2 : s.attr ≠ some "dark") :
    (switchTheme s).attr = some (invPref s.prefersDark) ∧
    (switchTheme s).storage = some (invPref s.prefersDark) ∧
    (∀ s2 : PageSt,
      (switchTheme s2).attr = some "light" ∨
        (switchTheme s2).attr = some "dark") := by
  have hn : nextTheme s.attr s.prefersDark = invPref s.prefersDark := by
    simp [nextTheme, h1, h2, invPref]
  refine ⟨by rw [switchTheme_attr, hn], by rw [switchTheme_storage, hn], ?_⟩
  intro s2
  rw [switchTheme_attr]
  unfold nextTheme
  split
  · exact Or.inl rfl
  · split
    · exact Or.inr rfl
    · split
      · exact Or.inl rfl
      · exact Or.inr rfl

theorem toggle_normalizes_unrecognized_witness :
    (switchTheme ⟨some "modern-tech", some "modern-tech", true, [], 0⟩).attr
      = some "light" :=
  (toggle_normalizes_unrecognized
    ⟨some "modern-tech", some "modern-tech", true, [], 0⟩
    (by decide) (by decide)).1

/-- C10: the theme chosen by a toggle is a function of the applied
attribute and the environment preference only — two page states agreeing
on those but with arbitrarily different persisted storage contents select
the same next theme and end with the same applied attribute. -/
theorem toggle_independent_of_storage (s1 s2 : PageSt)
    (ha : s1.attr = s2.attr) (hp : s1.prefersDark = s2.prefersDark) :
    nextTheme s1.attr s1.prefersDark = nextTheme s2.attr s2.prefersDark ∧
    (switchTheme s1).attr = (switchTheme s2).attr := by
  rw [switchTheme_attr, switchTheme_attr, ha, hp]
  exact ⟨rfl, rfl⟩

theorem toggle_independent_of_storage_witness :
    (switchTheme ⟨some "dark", some "dark", true, [], 0⟩).attr
      = (switchTheme ⟨some "dark", none, true, [], 0⟩).attr :=
  (toggle_independent_of_storage ⟨some "dark", some "dark", true, [], 0⟩
    ⟨some "dark", none, true, [], 0⟩ rfl rfl).2
